import Mathlib

/-!
Shallow embedding of the `gps_odom` state-estimation node
(`src/gps_odom_old.cpp`).  Doubles are modelled by rationals; ROS message
types become plain structures; the external Kalman filter (whose source is
out of scope) is an abstract interface of operations, exactly the four
operations the node invokes plus the one-time initialization.  The
function-local `static` variables of `gpsOdom::gpsCallback` become an
explicit `StaticState` record threaded through the callback; by default it
is shared by every instance living in the same process, as C++ statics are.
-/

namespace GpsOdom

/-- 3D vector of doubles (e.g. `geometry_msgs::Point` / `Vector3`). -/
structure Vec3 where
  x : ℚ
  y : ℚ
  z : ℚ
deriving DecidableEq

/-- Quaternion, stored `(w, x, y, z)` as in `Eigen::Quaterniond(w,x,y,z)`. -/
structure Quat where
  w : ℚ
  x : ℚ
  y : ℚ
  z : ℚ
deriving DecidableEq

/-- `std_msgs::Header`: a timestamp and a frame identifier. -/
structure Header where
  stamp : ℚ
  frame_id : String
deriving DecidableEq

/-- `geometry_msgs::Pose`: position and quaternion. -/
structure Pose where
  position : Vec3
  quatOrientation : Quat
deriving DecidableEq

/-- `geometry_msgs::PoseStamped`. -/
structure PoseStamped where
  header : Header
  pose : Pose
deriving DecidableEq

/-- `geometry_msgs::TransformStamped` as filled by `gpsOdom::PublishTransform`. -/
structure TransformStamped where
  header : Header
  child_frame_id : String
  translationV : Vec3
  rotationQ : Quat
deriving DecidableEq

/-- A 3x3 matrix of doubles (`Eigen::Matrix3d`), entry `aij` at row `i`, column `j`. -/
structure Mat3 where
  a00 : ℚ
  a01 : ℚ
  a02 : ℚ
  a10 : ℚ
  a11 : ℚ
  a12 : ℚ
  a20 : ℚ
  a21 : ℚ
  a22 : ℚ
deriving DecidableEq

/-- `Eigen::Matrix3d::Identity()`. -/
def Mat3.identity : Mat3 := ⟨1, 0, 0, 0, 1, 0, 0, 0, 1⟩

/-- Entrywise difference `A - B`. -/
def Mat3.sub (A B : Mat3) : Mat3 :=
  ⟨A.a00 - B.a00, A.a01 - B.a01, A.a02 - B.a02,
   A.a10 - B.a10, A.a11 - B.a11, A.a12 - B.a12,
   A.a20 - B.a20, A.a21 - B.a21, A.a22 - B.a22⟩

/-- Entrywise division by a scalar, `A / s`. -/
def Mat3.divScalar (A : Mat3) (s : ℚ) : Mat3 :=
  ⟨A.a00 / s, A.a01 / s, A.a02 / s,
   A.a10 / s, A.a11 / s, A.a12 / s,
   A.a20 / s, A.a21 / s, A.a22 / s⟩

/-- Matrix transpose. -/
def Mat3.transpose (A : Mat3) : Mat3 :=
  ⟨A.a00, A.a10, A.a20,
   A.a01, A.a11, A.a21,
   A.a02, A.a12, A.a22⟩

/-- Matrix product `A * B`. -/
def Mat3.mul (A B : Mat3) : Mat3 :=
  ⟨A.a00 * B.a00 + A.a01 * B.a10 + A.a02 * B.a20,
   A.a00 * B.a01 + A.a01 * B.a11 + A.a02 * B.a21,
   A.a00 * B.a02 + A.a01 * B.a12 + A.a02 * B.a22,
   A.a10 * B.a00 + A.a11 * B.a10 + A.a12 * B.a20,
   A.a10 * B.a01 + A.a11 * B.a11 + A.a12 * B.a21,
   A.a10 * B.a02 + A.a11 * B.a12 + A.a12 * B.a22,
   A.a20 * B.a00 + A.a21 * B.a10 + A.a22 * B.a20,
   A.a20 * B.a01 + A.a21 * B.a11 + A.a22 * B.a21,
   A.a20 * B.a02 + A.a21 * B.a12 + A.a22 * B.a22⟩

/-- Quaternion-to-rotation-matrix conversion, exactly Eigen's
`Quaternion::toRotationMatrix` (used by `Eigen::Matrix3d R(Eigen::Quaterniond(w,x,y,z))`
at line 123 of the source). -/
def quatToRot (q : Quat) : Mat3 :=
  let tx := 2 * q.x
  let ty := 2 * q.y
  let tz := 2 * q.z
  let twx := tx * q.w
  let twy := ty * q.w
  let twz := tz * q.w
  let txx := tx * q.x
  let txy := ty * q.x
  let txz := tz * q.x
  let tyy := ty * q.y
  let tyz := tz * q.y
  let tzz := tz * q.z
  ⟨1 - (tyy + tzz), txy - twz, txz + twy,
   txy + twz, 1 - (txx + tzz), tyz - twx,
   txz - twy, tyz + twx, 1 - (txx + tyy)⟩

/-- `nav_msgs::Odometry` restricted to the fields the node writes or that a
claim reads.  The two 36-entry covariance arrays are total maps from the flat
array index; entries never written stay at the message default `0`. -/
structure Odometry where
  header : Header
  child_frame_id : String
  pose_position : Vec3
  pose_quatOrientation : Quat
  pose_covariance : ℕ → ℚ
  twist_linear : Vec3
  twist_angular : Vec3
  twist_covariance : ℕ → ℚ

/-- The opaque external Kalman filter, as the interface of the five
operations the node uses (`KalmanFilter` in the out-of-scope header):
one-time initialization, `processUpdate(dt)`, `measurementUpdate(meas, dt)`,
`getState()` (6-vector) and `getProcessNoise()` (6x6 covariance read-back).
`σ` is the filter's hidden internal state. -/
structure KFImpl (σ : Type) where
  initOp : (ℕ → ℚ) → (ℕ → ℕ → ℚ) → (ℕ → ℕ → ℚ) → (ℕ → ℕ → ℚ) → σ
  processUpdate : σ → ℚ → σ
  measurementUpdate : σ → Vec3 → ℚ → σ
  getState : σ → ℕ → ℚ
  getProcessNoise : σ → ℕ → ℕ → ℚ

/-- The per-instance member state of a `gpsOdom` object: the filter member
`kf_`, the configuration members, and the initial pose `initPose_`. -/
structure NodeState (σ : Type) where
  kf : σ
  publish_tf : Bool
  child_frame_id : String
  initPose : PoseStamped

/-- The function-local `static` storage of `gpsOdom::gpsCallback`:
`t_last_proc` (line 75), `t_last_meas` (line 91) and `R_prev` (line 122).
The two timestamps are dynamically initialized from the first message, hence
`Option`; `R_prev`'s initializer is the constant identity. -/
structure StaticState where
  t_last_proc : Option ℚ
  t_last_meas : Option ℚ
  R_prev : Mat3
deriving DecidableEq

/-- The statics before any callback has run. -/
def initStatics : StaticState :=
  { t_last_proc := none, t_last_meas := none, R_prev := Mat3.identity }

/-- `double dt = (msg->header.stamp - t_last_proc).toSec();` with the
static's first-call initialization `t_last_proc = msg->header.stamp`. -/
def dtProcOf (st : StaticState) (msg : PoseStamped) : ℚ :=
  msg.header.stamp - st.t_last_proc.getD msg.header.stamp

/-- `double meas_dt = (msg->header.stamp - t_last_meas).toSec();` with the
static's first-call initialization `t_last_meas = msg->header.stamp`. -/
def dtMeasOf (st : StaticState) (msg : PoseStamped) : ℚ :=
  msg.header.stamp - st.t_last_meas.getD msg.header.stamp

/-- Effect of the loop `odom_msg.pose.covariance[6*i+j] = proc_noise(i,j)`
for `i, j` in `0..2` on the zero-initialized 36-entry array: flat index `n`
decomposes as row `n / 6`, column `n % 6`. -/
def poseCovArray (P : ℕ → ℕ → ℚ) : ℕ → ℚ := fun n =>
  if n / 6 < 3 ∧ n % 6 < 3 then P (n / 6) (n % 6) else 0

/-- Effect of the loop `odom_msg.twist.covariance[6*i+j] = proc_noise(3+i,3+j)`
for `i, j` in `0..2` on the zero-initialized 36-entry array. -/
def twistCovArray (P : ℕ → ℕ → ℚ) : ℕ → ℚ := fun n =>
  if n / 6 < 3 ∧ n % 6 < 3 then P (3 + n / 6) (3 + n % 6) else 0

/-- Lines 122-134: the single-step finite differentiation for angular
velocity.  Uses the process-time delta `dt` and the static `R_prev`.  When
the guard `dt > 1e-6` fails, the freshly zero-initialized `odom_msg` keeps
angular velocity `(0,0,0)`. -/
def angularVelocityOf (st : StaticState) (msg : PoseStamped) : Vec3 :=
  let dt := dtProcOf st msg
  let R := quatToRot msg.pose.quatOrientation
  if dt > 1 / 1000000 then
    let R_dot := (R.sub st.R_prev).divScalar dt
    let w_hat := R_dot.mul R.transpose
    ⟨w_hat.a21, w_hat.a02, w_hat.a10⟩
  else
    ⟨0, 0, 0⟩

/-- `gpsOdom::PublishTransform` (lines 164-181): a rigid transform whose
translation is the pose's position and whose rotation is the pose's
orientation. -/
def PublishTransform (pose : Pose) (header : Header) (child_frame_id : String) :
    TransformStamped :=
  { header := header
    child_frame_id := child_frame_id
    translationV := pose.position
    rotationQ := pose.quatOrientation }

/-- Everything one invocation of `gpsOdom::gpsCallback` produces: the updated
member state, the updated statics, and the four published messages. -/
structure CallbackResult (σ : Type) where
  node : NodeState σ
  statics : StaticState
  odom : Odometry
  tf : Option TransformStamped
  localOdom : Odometry
  mocap : PoseStamped

/-- `gpsOdom::gpsCallback` (lines 72-162), with the hypothesis-test threshold
(a local constant `= 0.5` at line 79, never read afterwards) exposed as the
parameter `thr`. -/
def gpsCallbackT {σ : Type} (impl : KFImpl σ) (thr : ℚ) (node : NodeState σ)
    (st : StaticState) (msg : PoseStamped) : CallbackResult σ :=
  let dt : ℚ := dtProcOf st msg
  let hypothesis_test_threshold : ℚ := thr
  let kf1 := impl.processUpdate node.kf dt
  let meas : Vec3 := msg.pose.position
  let proc_noise_apriori := impl.getProcessNoise kf1
  let xbar := impl.getState kf1
  let meas_dt : ℚ := dtMeasOf st msg
  let kf2 := impl.measurementUpdate kf1 meas meas_dt
  let state := impl.getState kf2
  let proc_noise := impl.getProcessNoise kf2
  let odom_msg : Odometry :=
    { header := msg.header
      child_frame_id := msg.header.frame_id
      pose_position := ⟨state 0, state 1, state 2⟩
      pose_quatOrientation := msg.pose.quatOrientation
      pose_covariance := poseCovArray proc_noise
      twist_linear := ⟨state 3, state 4, state 5⟩
      twist_angular := angularVelocityOf st msg
      twist_covariance := twistCovArray proc_noise }
  let tfMsg : Option TransformStamped :=
    if node.publish_tf then
      some (PublishTransform ⟨odom_msg.pose_position, odom_msg.pose_quatOrientation⟩
        odom_msg.header node.child_frame_id)
    else none
  let localOdom_msg : Odometry :=
    { odom_msg with
        pose_position :=
          ⟨odom_msg.pose_position.x - node.initPose.pose.position.x,
           odom_msg.pose_position.y - node.initPose.pose.position.y,
           odom_msg.pose_position.z - node.initPose.pose.position.z⟩ }
  let mocap_msg : PoseStamped :=
    { header := { msg.header with frame_id := "fcu" }
      pose := { position := msg.pose.position
                quatOrientation := msg.pose.quatOrientation } }
  { node := { node with kf := kf2 }
    statics := { t_last_proc := some msg.header.stamp
                 t_last_meas := some msg.header.stamp
                 R_prev := quatToRot msg.pose.quatOrientation }
    odom := odom_msg
    tf := tfMsg
    localOdom := localOdom_msg
    mocap := mocap_msg }

/-- The callback with the source's actual threshold value `0.5`. -/
def gpsCallback {σ : Type} (impl : KFImpl σ) (node : NodeState σ)
    (st : StaticState) (msg : PoseStamped) : CallbackResult σ :=
  gpsCallbackT impl (1 / 2) node st msg

/-- Accumulated state of a run of one node instance over a message stream. -/
structure RunState (σ : Type) where
  node : NodeState σ
  statics : StaticState
  outputs : List (CallbackResult σ)

/-- One step of the single-instance run. -/
def runStep {σ : Type} (impl : KFImpl σ) (rs : RunState σ) (msg : PoseStamped) :
    RunState σ :=
  let r := gpsCallback impl rs.node rs.statics msg
  { node := r.node, statics := r.statics, outputs := rs.outputs ++ [r] }

/-- Run one node instance over a message stream, from fresh statics. -/
def runNode {σ : Type} (impl : KFImpl σ) (node : NodeState σ)
    (msgs : List PoseStamped) : RunState σ :=
  msgs.foldl (runStep impl) { node := node, statics := initStatics, outputs := [] }

/-- Accumulated state of two instances, `A` and `B`, coexisting in one
process: each owns its members, but the C++ function-local statics of
`gpsCallback` are a single process-wide storage shared by both. -/
structure SharedRunState (σ : Type) where
  nodeA : NodeState σ
  nodeB : NodeState σ
  statics : StaticState
  outputs : List (Bool × CallbackResult σ)

/-- One interleaved step: `true` delivers the message to instance `A`,
`false` to instance `B`; both go through the shared statics. -/
def sharedStep {σ : Type} (impl : KFImpl σ) (rs : SharedRunState σ)
    (step : Bool × PoseStamped) : SharedRunState σ :=
  if step.1 then
    let r := gpsCallback impl rs.nodeA rs.statics step.2
    { rs with nodeA := r.node, statics := r.statics,
              outputs := rs.outputs ++ [(true, r)] }
  else
    let r := gpsCallback impl rs.nodeB rs.statics step.2
    { rs with nodeB := r.node, statics := r.statics,
              outputs := rs.outputs ++ [(false, r)] }

/-- Run two coexisting instances over an interleaved stream, sharing the
statics, from fresh statics. -/
def runShared {σ : Type} (impl : KFImpl σ) (nodeA nodeB : NodeState σ)
    (steps : List (Bool × PoseStamped)) : SharedRunState σ :=
  steps.foldl (sharedStep impl)
    { nodeA := nodeA, nodeB := nodeB, statics := initStatics, outputs := [] }

/-! ### Constructor and `main` (lines 8-70 and 185-203) -/

/-- The startup configuration as resolved by the parameter reads in the
constructor (defaults: `max_accel = 5.0`, `publish_tf = true`,
`child_frame_id = "base_link"`, `gps_fps = 20.0`). -/
structure Config where
  max_accel : ℚ
  publish_tf : Bool
  child_frame_id : String
  gps_fps : ℚ
deriving DecidableEq

/-- Lines 46-51: `proc_noise_diag` before the elementwise squaring; entries
`0..2` get `0.5 * max_accel * dt * dt`, entries `3..5` get `max_accel * dt`. -/
def proc_noise_diag_base (max_accel dt : ℚ) : ℕ → ℚ := fun n =>
  if n < 3 then (1 / 2) * max_accel * dt * dt else max_accel * dt

/-- Line 52: `proc_noise_diag = proc_noise_diag.array().square();`. -/
def proc_noise_diag (max_accel dt : ℚ) : ℕ → ℚ := fun n =>
  (proc_noise_diag_base max_accel dt n) ^ 2

/-- Lines 53-56: `meas_noise_diag` entries `0..2` set to `1e-2`. -/
def meas_noise_diag_base : ℕ → ℚ := fun n =>
  if n < 3 then 1 / 100 else 0

/-- Line 57: `meas_noise_diag = meas_noise_diag.array().square();`. -/
def meas_noise_diag : ℕ → ℚ := fun n => (meas_noise_diag_base n) ^ 2

/-- The diagonal process-noise matrix `proc_noise_diag.asDiagonal()` passed to
the filter's initialization, with `dt = 1.0 / gps_fps` (line 34). -/
def procNoiseMatrix (cfg : Config) : ℕ → ℕ → ℚ := fun i j =>
  if i = j then proc_noise_diag cfg.max_accel (1 / cfg.gps_fps) i else 0

/-- The diagonal measurement-noise matrix `meas_noise_diag.asDiagonal()`. -/
def measNoiseMatrix : ℕ → ℕ → ℚ := fun i j =>
  if i = j then meas_noise_diag i else 0

/-- Line 59: `initStates << initPose x, y, z, 0, 0, 0`. -/
def ctorInitStates (p : PoseStamped) : ℕ → ℚ := fun n =>
  match n with
  | 0 => p.pose.position.x
  | 1 => p.pose.position.y
  | 2 => p.pose.position.z
  | _ => 0

/-- `1.0 * KalmanFilter::ProcessCov_t::Identity()` (line 61). -/
def identity6 : ℕ → ℕ → ℚ := fun i j => if i = j then 1 else 0

/-- Outcome of running the constructor body: normal completion, a thrown
C++ exception (caught in `main`), or a `ROS_ASSERT` failure (which aborts
the process without unwinding). -/
inductive CtorResult (σ : Type) where
  | ok : NodeState σ → CtorResult σ
  | thrown : String → CtorResult σ
  | assertFailed : CtorResult σ

/-- `gpsOdom::gpsOdom` (lines 8-70) on resolved configuration `cfg` and the
first received pose `initPose`: throws when `publish_tf_ && child_frame_id_.empty()`
(lines 27-28), asserts `gps_fps > 0.0` (line 33), then initializes the
filter (lines 44-62). -/
def gpsOdomCtor {σ : Type} (impl : KFImpl σ) (cfg : Config)
    (initPose : PoseStamped) : CtorResult σ :=
  if cfg.publish_tf ∧ cfg.child_frame_id = "" then
    CtorResult.thrown "gps_odom: child_frame_id required for publishing tf"
  else if cfg.gps_fps > 0 then
    CtorResult.ok
      { kf := impl.initOp (ctorInitStates initPose) identity6
          (procNoiseMatrix cfg) measNoiseMatrix
        publish_tf := cfg.publish_tf
        child_frame_id := cfg.child_frame_id
        initPose := initPose }
  else
    CtorResult.assertFailed

/-- How the process ends: `return code` from `main`, or an abort. -/
inductive ExitOutcome where
  | exited : ℤ → ExitOutcome
  | aborted : ExitOutcome
deriving DecidableEq

/-- `main` (lines 185-203): construction inside `try`; a caught exception
returns `1`, normal termination returns `0`. -/
def mainRun {σ : Type} (impl : KFImpl σ) (cfg : Config) (initPose : PoseStamped) :
    ExitOutcome :=
  match gpsOdomCtor impl cfg initPose with
  | CtorResult.ok _ => ExitOutcome.exited 0
  | CtorResult.thrown _ => ExitOutcome.exited 1
  | CtorResult.assertFailed => ExitOutcome.aborted

/-! ### Concrete fixtures for witnesses and counterexamples -/

/-- A concrete instantiation of the opaque filter interface, used to
evaluate the node on concrete inputs (hidden state: one rational). -/
def testKF : KFImpl ℚ :=
  { initOp := fun x0 _ _ _ => x0 0
    processUpdate := fun s dt => s + dt
    measurementUpdate := fun s m mdt => s + m.x + m.y + m.z + mdt
    getState := fun s n => s + n
    getProcessNoise := fun s i j => s + 7 * i + j }

/-- The identity quaternion. -/
def q_id : Quat := ⟨1, 0, 0, 0⟩

/-- A quaternion whose rotation matrix differs from the identity. -/
def q_rot : Quat := ⟨1, 1, 0, 0⟩

/-- A pose measurement at time `t` with orientation `q`, at the origin. -/
def msgAt (t : ℚ) (q : Quat) : PoseStamped :=
  { header := { stamp := t, frame_id := "world" }
    pose := { position := ⟨0, 0, 0⟩, quatOrientation := q } }

/-- A concrete node-instance state. -/
def testNode : NodeState ℚ :=
  { kf := 0, publish_tf := true, child_frame_id := "base_link",
    initPose := msgAt 0 q_id }

/-- A second, independent node-instance state. -/
def testNodeB : NodeState ℚ :=
  { kf := 100, publish_tf := false, child_frame_id := "base_link",
    initPose := msgAt 0 q_id }

/-- The angular velocity published by the `k`-th callback of a run
(zero vector when the run is shorter). -/
def angularAt {σ : Type} (outs : List (CallbackResult σ)) (k : ℕ) : Vec3 :=
  match outs.get? k with
  | some r => r.odom.twist_angular
  | none => ⟨0, 0, 0⟩

/-- The outputs of instance `A` within an interleaved two-instance run. -/
def outputsOfA {σ : Type} (outs : List (Bool × CallbackResult σ)) :
    List (CallbackResult σ) :=
  outs.filterMap (fun p => if p.1 then some p.2 else none)

/-- The default configuration values of the parameter reads. -/
def cfgDefault : Config :=
  { max_accel := 5, publish_tf := true, child_frame_id := "base_link", gps_fps := 20 }

/-- A configuration requesting transform publishing with an empty child
frame identifier. -/
def cfgBadTf : Config :=
  { max_accel := 5, publish_tf := true, child_frame_id := "", gps_fps := 20 }

/-! ### Helper lemmas -/

/-- Flat-index decomposition for the two covariance-array loops: index
`6*i + j` with `i, j < 3` lands on entry `(i, j)` of the pose block and on
entry `(3+i, 3+j)` of the twist block. -/
theorem covArray_entries (P : ℕ → ℕ → ℚ) (i j : ℕ) (hi : i < 3) (hj : j < 3) :
    poseCovArray P (6 * i + j) = P i j ∧
    twistCovArray P (6 * i + j) = P (3 + i) (3 + j) := by
  have hdiv : (6 * i + j) / 6 = i := by omega
  have hmod : (6 * i + j) % 6 = j := by omega
  constructor <;> simp [poseCovArray, twistCovArray, hdiv, hmod, hi, hj]

/-- Invariant of the single-instance run: the two static timestamps stay
equal under every callback, since each overwrites both with the current
message's stamp. -/
theorem clocks_agree_foldl {σ : Type} (impl : KFImpl σ) (msgs : List PoseStamped)
    (rs : RunState σ) (h : rs.statics.t_last_proc = rs.statics.t_last_meas) :
    (msgs.foldl (runStep impl) rs).statics.t_last_proc
      = (msgs.foldl (runStep impl) rs).statics.t_last_meas := by
  induction msgs generalizing rs with
  | nil => exact h
  | cons m ms ih => exact ih (runStep impl rs m) rfl

/-! ### Claims -/

/-- Claim C1, as stated, is false on the code: on the third callback of the
run below `dt_proc = 0 ≤ 1e-6`, yet the published angular velocity is the
fresh message's zero default `(0,0,0)`, not the previous cycle's reported
value `(2,0,0)`. -/
theorem C1_counterexample :
    dtProcOf (runNode testKF testNode [msgAt 0 q_id, msgAt 1 q_rot]).statics
        (msgAt 1 q_rot) ≤ 1 / 1000000 ∧
    angularAt (runNode testKF testNode
        [msgAt 0 q_id, msgAt 1 q_rot, msgAt 1 q_rot]).outputs 2
      ≠ angularAt (runNode testKF testNode
        [msgAt 0 q_id, msgAt 1 q_rot, msgAt 1 q_rot]).outputs 1 := by
  norm_num [runNode, runStep, gpsCallback, gpsCallbackT, angularVelocityOf,
    dtProcOf, dtMeasOf, quatToRot, Mat3.sub, Mat3.divScalar, Mat3.mul,
    Mat3.transpose, Mat3.identity, initStatics, testKF, testNode, msgAt,
    q_id, q_rot, angularAt, poseCovArray, twistCovArray, PublishTransform,
    List.foldl, Option.getD]

/-- Claim C1 (amended): on any callback invocation where `dt_proc ≤ 1e-6`
(including the first invocation), the finite-difference computation is
skipped and the angular velocity published in the global odometry message is
the freshly zero-initialized message default `(0,0,0)`. -/
theorem C1_small_dt_angular_default {σ : Type} (impl : KFImpl σ)
    (node : NodeState σ) (st : StaticState) (msg : PoseStamped)
    (h : dtProcOf st msg ≤ 1 / 1000000) :
    (gpsCallback impl node st msg).odom.twist_angular = ⟨0, 0, 0⟩ := by
  show angularVelocityOf st msg = ⟨0, 0, 0⟩
  simp only [angularVelocityOf]
  rw [if_neg (not_lt.mpr h)]

/-- Witness for C1's amended theorem at a concrete first-call input. -/
theorem C1_small_dt_angular_default_witness :
    dtProcOf initStatics (msgAt 0 q_id) ≤ 1 / 1000000 ∧
    (gpsCallback testKF testNode initStatics (msgAt 0 q_id)).odom.twist_angular
      = ⟨0, 0, 0⟩ :=
  ⟨by norm_num [dtProcOf, initStatics, msgAt],
   C1_small_dt_angular_default testKF testNode initStatics (msgAt 0 q_id)
     (by norm_num [dtProcOf, initStatics, msgAt])⟩

/-- Claim C2 fails on the code: the callback's persistent state lives in
function-local statics shared by every instance in the process, so the
angular velocity instance `A` publishes for its second message (at `t = 10`,
after its own `t = 0` message) changes from `(1/5,0,0)` to `(2/5,0,0)` when
an interleaved message of instance `B` (at `t = 5`) runs in between, even
though `A`'s own stream is unchanged. -/
theorem C2_shared_statics_leak :
    angularAt (outputsOfA (runShared testKF testNode testNodeB
        [(true, msgAt 0 q_id), (false, msgAt 5 q_id), (true, msgAt 10 q_rot)]).outputs) 1
      ≠ angularAt (runNode testKF testNode [msgAt 0 q_id, msgAt 10 q_rot]).outputs 1 := by
  norm_num [runNode, runStep, runShared, sharedStep, gpsCallback, gpsCallbackT,
    angularVelocityOf, dtProcOf, dtMeasOf, quatToRot, Mat3.sub, Mat3.divScalar,
    Mat3.mul, Mat3.transpose, Mat3.identity, initStatics, testKF, testNode,
    testNodeB, msgAt, q_id, q_rot, angularAt, outputsOfA, poseCovArray,
    twistCovArray, PublishTransform, List.foldl, Option.getD, List.filterMap]

/-- Claim C3: the published pose-covariance entry at flat index `6*i + j`
for `i, j < 3` equals entry `(i, j)` of the 6x6 covariance read back from
the filter after the measurement update, and the published twist-covariance
entry there equals entry `(3+i, 3+j)`; the position-velocity cross terms are
never copied. -/
theorem C3_covariance_blocks {σ : Type} (impl : KFImpl σ) (node : NodeState σ)
    (st : StaticState) (msg : PoseStamped) (i j : ℕ) (hi : i < 3) (hj : j < 3) :
    (gpsCallback impl node st msg).odom.pose_covariance (6 * i + j)
        = impl.getProcessNoise (gpsCallback impl node st msg).node.kf i j ∧
    (gpsCallback impl node st msg).odom.twist_covariance (6 * i + j)
        = impl.getProcessNoise (gpsCallback impl node st msg).node.kf (3 + i) (3 + j) := by
  have h1 : (gpsCallback impl node st msg).odom.pose_covariance
      = poseCovArray (impl.getProcessNoise (gpsCallback impl node st msg).node.kf) := rfl
  have h2 : (gpsCallback impl node st msg).odom.twist_covariance
      = twistCovArray (impl.getProcessNoise (gpsCallback impl node st msg).node.kf) := rfl
  rw [h1, h2]
  exact covArray_entries _ i j hi hj

/-- Witness for C3 at the concrete entry `(1, 2)`. -/
theorem C3_covariance_blocks_witness :
    (1 : ℕ) < 3 ∧ (2 : ℕ) < 3 ∧
    ((gpsCallback testKF testNode initStatics (msgAt 0 q_id)).odom.pose_covariance
        (6 * 1 + 2)
      = testKF.getProcessNoise
          (gpsCallback testKF testNode initStatics (msgAt 0 q_id)).node.kf 1 2 ∧
    (gpsCallback testKF testNode initStatics (msgAt 0 q_id)).odom.twist_covariance
        (6 * 1 + 2)
      = testKF.getProcessNoise
          (gpsCallback testKF testNode initStatics (msgAt 0 q_id)).node.kf (3 + 1) (3 + 2)) :=
  ⟨by decide, by decide,
   C3_covariance_blocks testKF testNode initStatics (msgAt 0 q_id) 1 2
     (by decide) (by decide)⟩

/-- Claim C4: on every fusion cycle the local odometry message equals the
global odometry message with the initial pose's position subtracted
component-wise from the position, and every other field (header, child
frame, orientation, both covariance blocks, linear and angular velocity)
identical. -/
theorem C4_local_odom {σ : Type} (impl : KFImpl σ) (node : NodeState σ)
    (st : StaticState) (msg : PoseStamped) :
    (gpsCallback impl node st msg).localOdom.pose_position
        = ⟨(gpsCallback impl node st msg).odom.pose_position.x
            - node.initPose.pose.position.x,
           (gpsCallback impl node st msg).odom.pose_position.y
            - node.initPose.pose.position.y,
           (gpsCallback impl node st msg).odom.pose_position.z
            - node.initPose.pose.position.z⟩ ∧
    (gpsCallback impl node st msg).localOdom.header
        = (gpsCallback impl node st msg).odom.header ∧
    (gpsCallback impl node st msg).localOdom.child_frame_id
        = (gpsCallback impl node st msg).odom.child_frame_id ∧
    (gpsCallback impl node st msg).localOdom.pose_quatOrientation
        = (gpsCallback impl node st msg).odom.pose_quatOrientation ∧
    (gpsCallback impl node st msg).localOdom.pose_covariance
        = (gpsCallback impl node st msg).odom.pose_covariance ∧
    (gpsCallback impl node st msg).localOdom.twist_linear
        = (gpsCallback impl node st msg).odom.twist_linear ∧
    (gpsCallback impl node st msg).localOdom.twist_angular
        = (gpsCallback impl node st msg).odom.twist_angular ∧
    (gpsCallback impl node st msg).localOdom.twist_covariance
        = (gpsCallback impl node st msg).odom.twist_covariance :=
  ⟨rfl, rfl, rfl, rfl, rfl, rfl, rfl, rfl⟩

/-- Claim C5: the pose-relay message carries the raw input measurement's
position and orientation unchanged (independent of the filter state), keeps
the input's timestamp, and is re-stamped with the fixed frame identifier
`"fcu"`. -/
theorem C5_pose_relay {σ : Type} (impl : KFImpl σ) (node : NodeState σ)
    (st : StaticState) (msg : PoseStamped) :
    (gpsCallback impl node st msg).mocap.pose.position = msg.pose.position ∧
    (gpsCallback impl node st msg).mocap.pose.quatOrientation
      = msg.pose.quatOrientation ∧
    (gpsCallback impl node st msg).mocap.header.stamp = msg.header.stamp ∧
    (gpsCallback impl node st msg).mocap.header.frame_id = "fcu" :=
  ⟨rfl, rfl, rfl, rfl⟩

/-- Claim C6: every received measurement reaches the filter — the member
filter state after the callback is exactly the measurement update (with the
message's 3D position) applied after the time update, on every invocation;
and the hypothesis-test rejection threshold is never consulted: the
callback's entire result is unchanged under any threshold value. -/
theorem C6_always_accept {σ : Type} (impl : KFImpl σ) (thr : ℚ)
    (node : NodeState σ) (st : StaticState) (msg : PoseStamped) :
    (gpsCallbackT impl thr node st msg).node.kf
        = impl.measurementUpdate (impl.processUpdate node.kf (dtProcOf st msg))
            msg.pose.position (dtMeasOf st msg) ∧
    gpsCallbackT impl thr node st msg = gpsCallback impl node st msg :=
  ⟨rfl, rfl⟩

/-- Claim C7: with `dt = 1/rate`, the process-noise diagonal handed to the
filter at initialization is `(0.5*a_max*dt^2)^2` on the three position axes
and `(a_max*dt)^2` on the three velocity axes, and the measurement-noise
diagonal is the constant `(1e-2)^2` per axis, independent of the
configuration. -/
theorem C7_noise_init (cfg : Config) (n : ℕ) :
    (n < 3 → procNoiseMatrix cfg n n
        = ((1 / 2) * cfg.max_accel * (1 / cfg.gps_fps) ^ 2) ^ 2) ∧
    (3 ≤ n → n < 6 → procNoiseMatrix cfg n n
        = (cfg.max_accel * (1 / cfg.gps_fps)) ^ 2) ∧
    (n < 3 → measNoiseMatrix n n = (1 / 100) ^ 2) := by
  refine ⟨fun h => ?_, fun h3 _ => ?_, fun h => ?_⟩
  · have hv : procNoiseMatrix cfg n n
        = ((1 / 2) * cfg.max_accel * (1 / cfg.gps_fps) * (1 / cfg.gps_fps)) ^ 2 := by
      simp [procNoiseMatrix, proc_noise_diag, proc_noise_diag_base, h]
    rw [hv]; ring
  · simp [procNoiseMatrix, proc_noise_diag, proc_noise_diag_base, Nat.not_lt.mpr h3]
  · simp [measNoiseMatrix, meas_noise_diag, meas_noise_diag_base, h]

/-- Witness for C7 at concrete axes `0` and `3` with the default
configuration. -/
theorem C7_noise_init_witness :
    (0 : ℕ) < 3 ∧ 3 ≤ (3 : ℕ) ∧ (3 : ℕ) < 6 ∧
    procNoiseMatrix cfgDefault 0 0
      = ((1 / 2) * cfgDefault.max_accel * (1 / cfgDefault.gps_fps) ^ 2) ^ 2 ∧
    procNoiseMatrix cfgDefault 3 3
      = (cfgDefault.max_accel * (1 / cfgDefault.gps_fps)) ^ 2 ∧
    measNoiseMatrix 0 0 = (1 / 100) ^ 2 :=
  ⟨by decide, by decide, by decide,
   (C7_noise_init cfgDefault 0).1 (by decide),
   (C7_noise_init cfgDefault 3).2.1 (by decide) (by decide),
   (C7_noise_init cfgDefault 0).2.2 (by decide)⟩

/-- Claim C8: when transform publishing is requested with an empty child
frame identifier, construction throws and the process exits with code 1;
with a complete configuration (no such conflict and a positive measurement
rate), construction succeeds and normal termination exits with code 0. -/
theorem C8_exit_codes {σ : Type} (impl : KFImpl σ) (cfg : Config)
    (p : PoseStamped) :
    (cfg.publish_tf = true → cfg.child_frame_id = "" →
        mainRun impl cfg p = ExitOutcome.exited 1) ∧
    (¬(cfg.publish_tf = true ∧ cfg.child_frame_id = "") → 0 < cfg.gps_fps →
        mainRun impl cfg p = ExitOutcome.exited 0) := by
  constructor
  · intro h1 h2
    simp [mainRun, gpsOdomCtor, h1, h2]
  · intro h1 h2
    simp [mainRun, gpsOdomCtor, h1, h2]

/-- Witness for C8 at two concrete configurations: one with transform
publishing and an empty child frame, one complete. -/
theorem C8_exit_codes_witness :
    mainRun testKF cfgBadTf (msgAt 0 q_id) = ExitOutcome.exited 1 ∧
    mainRun testKF cfgDefault (msgAt 0 q_id) = ExitOutcome.exited 0 :=
  ⟨(C8_exit_codes testKF cfgBadTf (msgAt 0 q_id)).1 rfl rfl,
   (C8_exit_codes testKF cfgDefault (msgAt 0 q_id)).2 (by simp [cfgDefault])
     (by norm_num [cfgDefault])⟩

/-- Claim C9: on every callback invocation — including those where the
epsilon guard suppresses the angular-velocity computation — the stored
previous rotation is overwritten with the rotation matrix of the current
message's orientation. -/
theorem C9_R_prev_unconditional {σ : Type} (impl : KFImpl σ)
    (node : NodeState σ) (st : StaticState) (msg : PoseStamped) :
    (gpsCallback impl node st msg).statics.R_prev
      = quatToRot msg.pose.quatOrientation := rfl

/-- Claim C10: along any run, the two independently tracked previous
timestamps coincide — so the measurement-time delta handed to the
measurement update always equals the process-time delta handed to the time
update — and every callback overwrites both with the current message's
timestamp. -/
theorem C10_clocks_never_diverge {σ : Type} (impl : KFImpl σ)
    (node : NodeState σ) (msgs : List PoseStamped) (msg : PoseStamped) :
    dtProcOf (runNode impl node msgs).statics msg
      = dtMeasOf (runNode impl node msgs).statics msg ∧
    (gpsCallback impl node ((runNode impl node msgs).statics) msg).statics.t_last_proc
      = some msg.header.stamp ∧
    (gpsCallback impl node ((runNode impl node msgs).statics) msg).statics.t_last_meas
      = some msg.header.stamp := by
  refine ⟨?_, rfl, rfl⟩
  have h := clocks_agree_foldl impl msgs
    { node := node, statics := initStatics, outputs := [] } rfl
  simp only [dtProcOf, dtMeasOf, runNode]
  rw [h]

end GpsOdom
